import Mathlib

/-!
Verification of the AndroSH command channel and file-backend layer.

The definitions below are a shallow embedding of `src/Core/shizuku.py`
(class `Rish`, the command channel) and `src/Core/HiManagers.py`
(classes `ADBFileManager`, `BusyBoxManager`, `PyFManager`, the three
file backends).  Python strings are modelled as Lean `String`
(the inputs considered are ASCII, so the Python string primitives
re-implemented below agree with CPython on them), Python
`None`-returning functions as `Option`, and a raised Python exception
as the `Except.error` branch of an `Except` result.  The string
primitives are written as structural recursions over `List Char` so
that every definition evaluates inside the kernel.
-/

/-- Single-quote character, built numerically so that quote-heavy shell
strings can be assembled without quote literals in the source text. -/
def sqc : Char := Char.ofNat 39

/-- Double-quote character. -/
def dqc : Char := Char.ofNat 34

/-- Backslash character. -/
def bsc : Char := Char.ofNat 92

/-- The single-quote character as a one-character string. -/
def sqS : String := String.mk [sqc]

/-- The double-quote character as a one-character string. -/
def dqS : String := String.mk [dqc]

/-- Prefix test on character lists. -/
def startsWithL : List Char → List Char → Bool
  | _, [] => true
  | [], _ :: _ => false
  | c :: cs, d :: ds => c = d && startsWithL cs ds

/-- Substring occurrence test on character lists. -/
def containsL : List Char → List Char → Bool
  | [], needle => needle = []
  | c :: cs, needle => startsWithL (c :: cs) needle || containsL cs needle

/-- Python `needle in hay` substring test. -/
def strContains (hay needle : String) : Bool :=
  containsL hay.data needle.data

/-- Split at the first occurrence of `sep` (assumed non-empty):
the text before it, the text after it, and whether it occurred. -/
def split1L (sep : List Char) : List Char → List Char →
    List Char × List Char × Bool
  | [], acc => (acc.reverse, [], false)
  | c :: cs, acc =>
    if startsWithL (c :: cs) sep then
      (acc.reverse, (c :: cs).drop sep.length, true)
    else split1L sep cs (c :: acc)

/-- Python `s.split(sep, 1)`: text before and after the first
occurrence of `sep`.  When `sep` does not occur the second component is
`""` (callers only use it after an `in` test). -/
def pySplit1 (s sep : String) : String × String :=
  let r := split1L sep.data s.data []
  (String.mk r.1, String.mk r.2.1)

/-- Leading-whitespace strip on character lists. -/
def trimLeftL (l : List Char) : List Char :=
  l.dropWhile Char.isWhitespace

/-- Trailing-whitespace strip on character lists. -/
def trimRightL (l : List Char) : List Char :=
  (trimLeftL l.reverse).reverse

/-- Python `s.lstrip()`. -/
def pyLstrip (s : String) : String := String.mk (trimLeftL s.data)

/-- Python `s.rstrip()`. -/
def pyRstrip (s : String) : String := String.mk (trimRightL s.data)

/-- Python `s.strip()`. -/
def pyStrip (s : String) : String :=
  String.mk (trimRightL (trimLeftL s.data))

/-- ASCII lowercase conversion of one character. -/
def lowerC (c : Char) : Char :=
  if 65 ≤ c.toNat && c.toNat ≤ 90 then Char.ofNat (c.toNat + 32) else c

/-- Python `s.lower()` on ASCII strings. -/
def pyLower (s : String) : String := String.mk (s.data.map lowerC)

/-- Whitespace-splitting worker for `pyWords`. -/
def wordsAux : List Char → List Char → List String
  | [], cur => if cur = [] then [] else [String.mk cur.reverse]
  | c :: cs, cur =>
    if Char.isWhitespace c then
      if cur = [] then wordsAux cs []
      else String.mk cur.reverse :: wordsAux cs []
    else wordsAux cs (c :: cur)

/-- Python `s.split()` with no separator: split on whitespace runs,
dropping empty fields. -/
def pyWords (s : String) : List String := wordsAux s.data []

/-- Digit-run parser backing `pyInt`: accepts `digit (digit | _ digit)*`
accumulating the value, the way Python `int` treats underscores (an
underscore must sit between two digits). -/
def pyNatAux : List Char → Nat → Bool → Option Nat
  | [], acc, seen => if seen then some acc else none
  | c :: cs, acc, seen =>
    if c.isDigit then pyNatAux cs (acc * 10 + (c.toNat - 48)) true
    else if c = '_' then
      match cs with
      | [] => none
      | d :: ds =>
        if d.isDigit && seen then pyNatAux ds (acc * 10 + (d.toNat - 48)) true
        else none
    else none

/-- Python `int(s)` on an ASCII string: strip whitespace, optional sign,
then digits with single underscores between digits; `none` models the
`ValueError` branch. -/
def pyInt (s : String) : Option Int :=
  match trimRightL (trimLeftL s.data) with
  | [] => none
  | c :: rest =>
    if c = '+' then (pyNatAux rest 0 false).map Int.ofNat
    else if c = '-' then (pyNatAux rest 0 false).map (fun n => -(Int.ofNat n))
    else (pyNatAux (c :: rest) 0 false).map Int.ofNat

/-- Result shape of `subprocess.run` as used by `Rish.run`: the decoded
triple the channel hands to its callers (spec name: `CommandResult`). -/
structure CommandResult where
  stdout : String
  stderr : String
  returncode : Int
deriving Repr, DecidableEq

/-- The sentinel prefix scanned for by `Rish.run`
(`shizuku.py` line 76): the fixed literal `RISH_EXIT_CODE:`. -/
def sentinelMark : String := "RISH_EXIT_CODE:"

/-- Wire framing applied by `Rish.run` (`shizuku.py` line 70):
`<command> 2>&1; echo RISH_EXIT_CODE:$?`. -/
def sentinelWrap (command_string : String) : String :=
  command_string ++ " 2>&1; echo RISH_EXIT_CODE:$?"

/-- Decode step of `Rish.run` (`shizuku.py` lines 74-107) applied to the
merged output `result.stdout + result.stderr`, producing the cleaned
output text and the exit code. -/
def rishDecode (output : String) : String × Int :=
  if strContains output sentinelMark then
    let parts := pySplit1 output sentinelMark
    let before := pyRstrip parts.1
    let after := pyStrip parts.2
    if after = "" then
      -- `exit_code` keeps its initial value 0; `rest` is `""`
      (before, 0)
    else
      -- `after` is stripped and non-empty, so `after.split()[0]` exists
      let exit_code_str := (pyWords after).headD ""
      let exit_code : Int :=
        match pyInt exit_code_str with
        | some n => n
        | none => 1
      let rest := pyLstrip (String.mk (after.data.drop exit_code_str.length))
      let clean_output :=
        if before ≠ "" && rest ≠ "" then before ++ "\n" ++ rest
        else if before ≠ "" then before
        else rest
      (clean_output, exit_code)
  else
    (pyRstrip output, 0)

/-- Routing step of `Rish.run` (`shizuku.py` lines 109-111): the cleaned
text goes to `stdout` when the exit code is zero and to `stderr`
otherwise. -/
def rishRunDecode (output : String) : CommandResult :=
  let d := rishDecode output
  { stdout := if d.2 = 0 then d.1 else ""
    stderr := if d.2 ≠ 0 then d.1 else ""
    returncode := d.2 }

/-- Outcome of the `subprocess.run` spawn inside `Rish.rish`: either the
child completed with captured streams, or the call raised
(`TimeoutExpired`, spawn error, ...). -/
inductive SpawnOutcome where
  | completed (stdout stderr : String)
  | raised (msg : String)
deriving Repr, DecidableEq

/-- `Rish.run` (`shizuku.py` lines 67-115): there is no `try`/`except`
around `self.rish(args)`, so a raised spawn error or timeout propagates
out of `run` unchanged; a completed child is decoded. -/
def rishRun (o : SpawnOutcome) : Except String CommandResult :=
  match o with
  | .completed so se => .ok (rishRunDecode (so ++ se))
  | .raised msg => .error msg

/-- `ADBFileManager._run_command` (`HiManagers.py` lines 20-32): wraps
`rish.run` in `try`/`except` and converts any raised exception into the
`MockResult` with empty `stdout`, the error text in `stderr`, and
`returncode = 1`. -/
def adbRunCommand (o : SpawnOutcome) : CommandResult :=
  match rishRun o with
  | .ok r => r
  | .error e => { stdout := "", stderr := e, returncode := 1 }

/-- Escape of one character under Python `repr` for `str`, with quote
character `q`: backslash and the chosen quote are backslash-escaped,
newline, tab and carriage return become two-character escapes, and every
other printable ASCII character is kept (the inputs below are printable
ASCII, where this is exactly Python `repr`). -/
def pyReprChar (q c : Char) : String :=
  if c = bsc then String.mk [bsc, bsc]
  else if c = q then String.mk [bsc, q]
  else if c = '\n' then String.mk [bsc, 'n']
  else if c = '\t' then String.mk [bsc, 't']
  else if c = '\r' then String.mk [bsc, 'r']
  else String.mk [c]

/-- Python `repr(s)` for a `str`: wrap in single quotes, or in double
quotes when the string contains a single quote but no double quote. -/
def pyRepr (s : String) : String :=
  let q : Char := if strContains s sqS && !(strContains s dqS) then dqc else sqc
  String.mk [q] ++ String.join (s.data.map (pyReprChar q)) ++ String.mk [q]

/-- Replacement of every occurrence of one character by a string, on
character lists. -/
def replaceCharL (target : Char) (repl : List Char) : List Char → List Char
  | [] => []
  | c :: cs =>
    if c = target then repl ++ replaceCharL target repl cs
    else c :: replaceCharL target repl cs

/-- Content escaping of `ADBFileManager.write` (`HiManagers.py` line
208): `content.replace("'", "'\"'\"'")` — each single quote becomes the
five-character close-quote, double-quoted quote, reopen-quote
sequence. -/
def adbEscapeContent (content : String) : String :=
  String.mk (replaceCharL sqc [sqc, dqc, sqc, dqc, sqc] content.data)

/-- Command text built by `ADBFileManager.write` (`HiManagers.py` line
209): `echo '<escaped>' > <repr(path.strip())>`. -/
def adbWriteCmd (path content : String) : String :=
  "echo " ++ sqS ++ adbEscapeContent content ++ sqS ++ " > " ++
    pyRepr (pyStrip path)

/-- Command text built by `ADBFileManager.read` (`HiManagers.py` line
183): `cat <repr(path.strip())>`. -/
def adbReadCmd (path : String) : String :=
  "cat " ++ pyRepr (pyStrip path)

/-- Wrapping applied by `ADBFileManager._run_command` (`HiManagers.py`
line 23): `rish.run` is called with `f"-c {repr(command)}"`. -/
def adbWrapCmd (command : String) : String :=
  "-c " ++ pyRepr command

/-- Full shell script dispatched for one `ADBFileManager.write` call:
the `_run_command` wrapper followed by the `Rish.run` sentinel
framing; the loader executes this text as a single shell command
line. -/
def adbWriteDispatch (path content : String) : String :=
  sentinelWrap (adbWrapCmd (adbWriteCmd path content))

/-- Quoting state of a POSIX shell scanner: outside any quote, inside
single quotes, inside double quotes. -/
inductive QState where
  | out
  | single
  | double
deriving Repr, DecidableEq

/-- POSIX shell command-line scanner (models the external `sh` that the
loader hands the wrapped command to; the spec treats it as an opaque
process executing the wire framing).  It walks the script tracking quote
state — backslash escapes the next character outside quotes, is literal
inside single quotes, and inside double quotes escapes the following
character — splitting the script at every unquoted `;` into the
top-level commands the shell would execute, and reporting the final
quote state (anything other than `out` is an unterminated quote, a shell
syntax error). -/
def shSplitAux (st : QState) (l : List Char) (cur : List Char)
    (acc : List String) : List String × QState :=
  match l with
  | [] => (acc ++ [String.mk cur.reverse], st)
  | c :: cs =>
    match st with
    | .out =>
      if c = ';' then shSplitAux .out cs [] (acc ++ [String.mk cur.reverse])
      else if c = sqc then shSplitAux .single cs (c :: cur) acc
      else if c = dqc then shSplitAux .double cs (c :: cur) acc
      else if c = bsc then
        match cs with
        | [] => (acc ++ [String.mk (c :: cur).reverse], .out)
        | d :: ds => shSplitAux .out ds (d :: c :: cur) acc
      else shSplitAux .out cs (c :: cur) acc
    | .single =>
      if c = sqc then shSplitAux .out cs (c :: cur) acc
      else shSplitAux .single cs (c :: cur) acc
    | .double =>
      if c = dqc then shSplitAux .out cs (c :: cur) acc
      else if c = bsc then
        match cs with
        | [] => (acc ++ [String.mk (c :: cur).reverse], .double)
        | d :: ds => shSplitAux .double ds (d :: c :: cur) acc
      else shSplitAux .double cs (c :: cur) acc

/-- Top-level command split of a shell script together with the final
quote state. -/
def shSplitTop (s : String) : List String × QState :=
  shSplitAux .out s.data [] []

/-- Error indicators of `ADBFileManager._get_output` (`HiManagers.py`
lines 50-51). -/
def adbErrIndicators : List String :=
  ["error", "failed", "permission denied", "no such file"]

/-- `ADBFileManager._get_output` (`HiManagers.py` lines 42-56): merge
stdout with stderr, dropping stderr text that looks like an actual
error. -/
def adbGetOutput (so se : String) : String :=
  let output := if so ≠ "" then pyStrip so else ""
  if se ≠ "" then
    let st := pyStrip se
    if st ≠ "" &&
        !(adbErrIndicators.any (fun ind => strContains (pyLower st) ind)) then
      if output ≠ "" then output ++ " " ++ st else st
    else output
  else output

/-- Error indicators filtered out of stderr by
`BusyBoxManager._run_command` (`HiManagers.py` lines 312-314). -/
def bbErrIndicators : List String :=
  ["error", "failed", "permission denied", "cannot", "no such"]

/-- `BusyBoxManager._run_command` output merging (`HiManagers.py` lines
304-320): combine stdout and stderr into one string, dropping stderr
text that contains an error indicator. -/
def bbCombine (so se : String) : String :=
  let output := if so ≠ "" then pyStrip so else ""
  if se ≠ "" then
    let st := pyStrip se
    if st ≠ "" &&
        !(bbErrIndicators.any (fun ind => strContains (pyLower st) ind)) then
      if output ≠ "" then output ++ " " ++ st else st
    else output
  else output

/-- `BusyBoxManager.read_text` (`HiManagers.py` lines 651-658) applied
to the combined output of the dispatched `cat`: the guard
`if result or result == ""` is a tautology on strings, so the combined
output is returned unconditionally and the `return None` branch is
unreachable. -/
def bbReadText (result : String) : Option String :=
  if result ≠ "" ∨ result = "" then some result else none

/-- Content decision of `ADBFileManager.read` (`HiManagers.py` lines
182-198): content is returned only when `result.stdout` is truthy
(non-empty); otherwise the read reports `None`. -/
def adbReadContent (res : CommandResult) : Option String :=
  if res.stdout ≠ "" then some res.stdout else none

/-- Representative stderr of a failed `cat` on an unreadable path. -/
def catNoSuchFileMsg : String :=
  "cat: can" ++ sqS ++ "t open /x: No such file or directory"

/-- Error indicators of the checksum condition in
`ADBFileManager.checksum` (`HiManagers.py` lines 247-249). -/
def adbChecksumErrInd : List String := ["error", "failed", "not found"]

/-- Acceptance condition of one checksum attempt in
`ADBFileManager.checksum`: the merged output is truthy and, when stderr
is truthy, no error indicator occurs in the lowered stderr (the `if
result.stderr` clause filters the generator, so an empty stderr makes
`any` vacuously false). -/
def adbChecksumCond (res : CommandResult) : Bool :=
  !((adbGetOutput res.stdout res.stderr) == "") &&
  !(!(res.stderr == "") &&
    adbChecksumErrInd.any (fun e => strContains (pyLower res.stderr) e))

/-- One checksum attempt of `ADBFileManager.checksum`: on acceptance,
the first whitespace-delimited word of the merged output. -/
def adbTryChecksum (res : CommandResult) : Option String :=
  if adbChecksumCond res then
    (pyWords (adbGetOutput res.stdout res.stderr)).head?
  else none

/-- `ADBFileManager.checksum` (`HiManagers.py` lines 236-273): try the
requested hash utility first (`pres` is its result); when that yields
nothing and the requested type is not `md5`, fall back to `md5sum`
(`mres` is its result); `None` only when both attempts fail. -/
def adbChecksum (hash_type : String) (pres mres : CommandResult) :
    Option String :=
  match adbTryChecksum pres with
  | some w => some w
  | none => if hash_type ≠ "md5" then adbTryChecksum mres else none

/-- Supported hash table of `BusyBoxManager.checksum` (`HiManagers.py`
lines 622-627). -/
def bbSupportedHashes : List (String × String) :=
  [("md5", "md5sum"), ("sha1", "sha1sum"),
   ("sha256", "sha256sum"), ("sha512", "sha512sum")]

/-- `BusyBoxManager.checksum` (`HiManagers.py` lines 620-642): when the
requested algorithm is unknown or its applet is not in the inventory the
call returns `None` at once, dispatching nothing and attempting no md5
fallback; otherwise the first word of the combined `hash_cmd` output is
returned unless it carries an error indicator. -/
def bbChecksum (applets : List String) (hash_type : String)
    (result : String) : Option String :=
  match bbSupportedHashes.lookup (pyLower hash_type) with
  | none => none
  | some hcmd =>
    if !(applets.contains hcmd) then none
    else if !(result == "") &&
        !(["error", "no such file"].any
            (fun e => strContains (pyLower result) e)) then
      (pyWords result).head?
    else none

/-- Memoization state of a `BusyBoxManager` instance as initialized by
`__init__` (`HiManagers.py` lines 279-286): `_available` is set to
`True` (not `None`), `_applets` to `None`. -/
structure BBState where
  available : Option Bool
  applets : Option (List String)
deriving Repr, DecidableEq

/-- The state a fresh `BusyBoxManager` starts in: `_available = True`. -/
def initBBState : BBState := { available := some true, applets := none }

/-- Abstract device state a probe would observe: whether the busybox
binary exists, and the outputs of its `--help` and `--list`
invocations. -/
structure BBSys where
  busyboxExists : Bool
  helpOutput : String
  listOutput : String

/-- `BusyBoxManager.is_available` (`HiManagers.py` lines 326-347):
return the memoized flag whenever `_available is not None`, otherwise
probe (existence test, then a `--help` self-test looking for the word
`BusyBox`).  The third component lists the probe commands actually
dispatched. -/
def bbIsAvailable (sys : BBSys) (s : BBState) :
    Bool × BBState × List String :=
  match s.available with
  | some b => (b, s, [])
  | none =>
    if !sys.busyboxExists then
      (false, { s with available := some false }, ["test -e busybox"])
    else
      let ok := strContains sys.helpOutput "BusyBox"
      (ok, { s with available := some ok },
        ["test -e busybox", "busybox --help"])

/-- Claim C1 (refuted, code bug): when the sentinel token never appears
in the merged output — child killed or crashed before echoing status —
`Rish.run` is required by the spec to report a transport failure with a
non-zero exit code, but `shizuku.py` lines 105-107 set `exit_code = 0`
and route the raw output to `stdout`, i.e. the call reports success. -/
theorem c1_missing_sentinel_reports_success :
    rishRunDecode "Killed" =
      { stdout := "Killed", stderr := "", returncode := 0 } := by
  decide

/-- Claim C2 (confirmed): every `CommandResult` produced by the decode
and routing of `Rish.run` has empty `stderr` when `exit_code = 0` and
empty `stdout` when `exit_code ≠ 0`. -/
theorem c2_output_routing_invariant (output : String) :
    ((rishRunDecode output).returncode = 0 →
      (rishRunDecode output).stderr = "") ∧
    ((rishRunDecode output).returncode ≠ 0 →
      (rishRunDecode output).stdout = "") := by
  by_cases h0 : (rishDecode output).2 = 0 <;>
    simp [rishRunDecode, h0]

/-- Witness for C2 at concrete outputs: a zero-exit decode has empty
`stderr`, a non-zero-exit decode has empty `stdout`. -/
theorem c2_output_routing_invariant_witness :
    (rishRunDecode "hello").stderr = "" ∧
    (rishRunDecode "RISH_EXIT_CODE:5").stdout = "" :=
  ⟨(c2_output_routing_invariant "hello").1 (by decide),
   (c2_output_routing_invariant "RISH_EXIT_CODE:5").2 (by decide)⟩

/-- Claim C3 counterexample: a timeout expiry inside `Rish.run` is not
converted into a synthetic result — `run` has no exception handler, so
the raised error propagates to the caller of `run`. -/
theorem c3_run_propagates_timeout :
    rishRun (SpawnOutcome.raised "TimeoutExpired") =
      Except.error "TimeoutExpired" := rfl

/-- Claim C3 as amended: the conversion to a synthetic result happens
one layer up, in `ADBFileManager._run_command`, which catches every
exception raised by `rish.run` and returns `exit_code = 1` with the
error description in `stderr`, never propagating the exception to
callers of the file-operation contract. -/
theorem c3_wrapper_converts_to_synthetic (msg : String) :
    adbRunCommand (SpawnOutcome.raised msg) =
      { stdout := "", stderr := msg, returncode := 1 } := rfl

/-- Claim C5 counterexample: the sentinel token is the fixed literal
`RISH_EXIT_CODE`, so merged output whose legitimate text contains the
sentinel format is misparsed — here the real status echoed at the end
was 5, yet the decoder splits at the first occurrence and reports
success with exit code 0. -/
theorem c5_fixed_token_misparsed :
    rishRunDecode ("RISH_EXIT_CODE:0 x\nRISH_EXIT_CODE:5") =
      { stdout := "x\nRISH_EXIT_CODE:5", stderr := "", returncode := 0 } := by
  decide

/-- Claim C5 as amended: the wire framing appends one and the same
sentinel tail — containing the fixed token `RISH_EXIT_CODE:` — to every
command, so no per-call uniqueness exists. -/
theorem c5_sentinel_tail_fixed_across_calls :
    ∃ t : String, (∀ c : String, sentinelWrap c = c ++ t) ∧
      strContains t sentinelMark = true :=
  ⟨" 2>&1; echo RISH_EXIT_CODE:$?", fun _ => rfl, by decide⟩

/-- Claim C6 (refuted, code bug): `BusyBoxManager.read_text` returns the
combined output unconditionally (its guard is a tautology, the `return
None` branch unreachable), so an unreadable path — whose `cat`
diagnostic is filtered out of the combined output, leaving `""` — is
reported exactly like an existing empty file; and `ADBFileManager.read`
reports `None` for an existing empty file because success requires
non-empty stdout.  Neither shell variant distinguishes the two
outcomes. -/
theorem c6_read_outcomes_indistinguishable :
    (∀ r : String, bbReadText r = some r) ∧
    bbReadText (bbCombine "" catNoSuchFileMsg) = some "" ∧
    bbReadText (bbCombine "" "") = some "" ∧
    adbReadContent { stdout := "", stderr := "", returncode := 0 } = none := by
  refine ⟨fun r => ?_, by decide, by decide, by decide⟩
  by_cases h : r = "" <;> simp [bbReadText, h]

/-- Claim C7 counterexample: on the augmented-shell backend with
`md5sum` present but `sha512sum` absent from the applet inventory,
`checksum` returns `None` instead of falling back to an md5 digest. -/
theorem c7_busybox_checksum_no_fallback :
    bbChecksum ["md5sum"] "sha512" "abc123 /f" = none := by
  decide

/-- Claim C7 as amended: only the raw-shell variant falls back to md5 —
when the requested attempt is rejected and the type is not `md5`,
`ADBFileManager.checksum` returns the md5 digest in the same `Option`
shape — while `BusyBoxManager.checksum` returns `None` whenever the
requested algorithm's applet is missing, with no fallback. -/
theorem c7_fallback_only_on_rawshell
    (ht : String) (pres mres : CommandResult) (w : String)
    (hne : ht ≠ "md5")
    (hp : adbChecksumCond pres = false)
    (hm : adbChecksumCond mres = true)
    (hw : (pyWords (adbGetOutput mres.stdout mres.stderr)).head? = some w)
    (applets : List String) (hcmd : String) (r : String)
    (hl : bbSupportedHashes.lookup (pyLower ht) = some hcmd)
    (hna : applets.contains hcmd = false) :
    adbChecksum ht pres mres = some w ∧
    bbChecksum applets ht r = none := by
  constructor
  · simp [adbChecksum, adbTryChecksum, hp, hm, hw, hne]
  · simp only [bbChecksum, hl, hna, Bool.not_false, if_true]

/-- Witness for C7 at concrete inputs: the `sha512sum` attempt fails
with a `not found` diagnostic, the md5 fallback digest is returned by
the raw-shell variant, and the augmented-shell variant yields `None`. -/
theorem c7_fallback_only_on_rawshell_witness :
    adbChecksum "sha512"
        { stdout := "", stderr := "sh: sha512sum: not found", returncode := 127 }
        { stdout := "d41d8cd98f00b204e9800998ecf8427e  /f", stderr := "",
          returncode := 0 } = some "d41d8cd98f00b204e9800998ecf8427e" ∧
    bbChecksum ["md5sum"] "sha512" "x y" = none :=
  c7_fallback_only_on_rawshell "sha512"
    { stdout := "", stderr := "sh: sha512sum: not found", returncode := 127 }
    { stdout := "d41d8cd98f00b204e9800998ecf8427e  /f", stderr := "",
      returncode := 0 }
    "d41d8cd98f00b204e9800998ecf8427e"
    (by decide) (by decide) (by decide) (by decide)
    ["md5sum"] "sha512sum" "x y" (by decide) (by decide)

/-- Claim C9 (refuted, code bug): `__init__` sets `_available = True`,
so on a fresh instance `is_available` returns `True` immediately for
every device state, dispatches no probe command, and leaves the state
unchanged; the flag never starts in an unknown state and the probe
(existence test plus `--help` self-test) is unreachable. -/
theorem c9_availability_flag_never_probed (sys : BBSys) :
    bbIsAvailable sys initBBState = (true, initBBState, []) ∧
    initBBState.available = some true :=
  ⟨rfl, rfl⟩

/-- Content of the write-then-read counterexample for claim C4:
`O'Brien; rm -rf /tmp/x`, the spec's own example of content with shell
metacharacters and an embedded single quote. -/
def c4Content : String := "O" ++ sqS ++ "Brien; rm -rf /tmp/x"

/-- The shell script actually dispatched by
`write("/tmp/p", "O'Brien; rm -rf /tmp/x")` on the raw-shell backend. -/
def c4Script : String := adbWriteDispatch "/tmp/p" c4Content

/-- Claim C4 (refuted, code bug): the raw-shell `write` layers Python
`repr` quoting (in `_run_command`) over its shell escaping, and the
result is not shell-quoted at all — for the spec's own example content
the dispatched script breaks at an unquoted `;` originating from the
content, so the shell sees a second top-level command beginning with
`rm -rf /tmp/x`, and the script ends inside an unterminated single
quote (a shell syntax error), so the intended `echo ... > /tmp/p` can
never execute and the write/read round trip cannot return the content. -/
theorem c4_write_quoting_broken :
    (shSplitTop c4Script).1.length = 2 ∧
    startsWithL
      (pyStrip ((shSplitTop c4Script).1.getD 1 "")).data
      ("rm -rf /tmp/x").data = true ∧
    (shSplitTop c4Script).2 = QState.single := by
  refine ⟨by decide, by decide, by decide⟩

/-- Claim C10 (confirmed): when the sentinel is present but the first
whitespace-delimited word after it is non-empty and not parseable as an
integer, the decode catches the `ValueError`, treats the command as
failed with `exit_code = 1`, clears `stdout`, and — being a total
function — never raises a parsing exception. -/
theorem c10_malformed_status_treated_as_failure (output : String)
    (htok : strContains output sentinelMark = true)
    (hne : pyStrip (pySplit1 output sentinelMark).2 ≠ "")
    (_hword : (pyWords (pyStrip (pySplit1 output sentinelMark).2)).headD "" ≠ "")
    (hint : pyInt ((pyWords (pyStrip (pySplit1 output sentinelMark).2)).headD "")
      = none) :
    (rishRunDecode output).returncode = 1 ∧
    (rishRunDecode output).stdout = "" := by
  have hdec : (rishDecode output).2 = 1 := by
    unfold rishDecode
    rw [htok]
    simp only [if_true, hne, if_neg, hint]
    simp [hne, hint]
  constructor
  · simpa [rishRunDecode] using hdec
  · simp [rishRunDecode, hdec]

/-- Witness for C10: the sentinel is followed by the word `abc`, which
`int` rejects; the result reports failure with exit code 1 and empty
stdout. -/
theorem c10_malformed_status_treated_as_failure_witness :
    (rishRunDecode "boom RISH_EXIT_CODE:abc").returncode = 1 ∧
    (rishRunDecode "boom RISH_EXIT_CODE:abc").stdout = "" :=
  c10_malformed_status_treated_as_failure "boom RISH_EXIT_CODE:abc"
    (by decide) (by decide) (by decide) (by decide)

/-- Command text built by `ADBFileManager.mkdir` (`HiManagers.py` line
113): `mkdir {'-p ' if parents else ''}{repr(path.strip())}`. -/
def adbMkdirCmd (path : String) (parents : Bool) : String :=
  "mkdir " ++ (if parents then "-p " else "") ++ pyRepr (pyStrip path)

/-- Command text built by `ADBFileManager.is_dir` (`HiManagers.py` line
97): `test -d {repr(path.strip())} && echo dir || echo not_dir`. -/
def adbIsDirCmd (path : String) : String :=
  "test -d " ++ pyRepr (pyStrip path) ++ " && echo dir || echo not_dir"

/-- Full shell script dispatched for one `ADBFileManager._run_command`
call (`HiManagers.py` line 23 and `shizuku.py` line 70): the
`-c {repr(command)}` wrapper followed by the sentinel framing — the
loader executes this text as one shell command line. -/
def adbDispatchScript (command : String) : String :=
  sentinelWrap (adbWrapCmd command)

/-- Command text built by `BusyBoxManager.mkdir` (`HiManagers.py` lines
369-372, `mode=None`): `mkdir {'-p ' if parents else ''}{repr(path)}`. -/
def bbMkdirCmd (path : String) (parents : Bool) : String :=
  "mkdir " ++ (if parents then "-p " else "") ++ pyRepr path

/-- Busybox prefixing of `BusyBoxManager._run_command` (`HiManagers.py`
lines 283-284 and 297-298): with the availability flag constantly true
(see C9) every command is prefixed with the busybox binary path and then
dispatched through `ADBFileManager._run_command`, i.e. through the same
`-c {repr(...)}` wrapper. -/
def bbBusyboxCmd (command : String) : String :=
  "/data/local/tmp/busybox/busybox " ++ command

/-- Representative merged output of the dispatched script: its first
top-level command is the nonexistent program `-c` (the intended utility
text is only that program's quoted argument), so the shell prints a
`not found` diagnostic for it — merged into stdout by the `2>&1`
framing — and sets `$?` to 127 (the POSIX command-not-found status),
which the sentinel echo then reports.  The diagnostic wording varies by
shell but contains neither `exists` nor `dir`; had it contained one of
the `_get_output` error indicators instead, the merged output would be
`""`, which also contains neither. -/
def shNotFoundOutput : String := "sh: -c: not found\nRISH_EXIT_CODE:127\n"

/-- Success classification of `ADBFileManager.mkdir` (`HiManagers.py`
lines 114-122) applied to the decoded result of the dispatched
command. -/
def adbMkdirSuccess (res : CommandResult) (parents : Bool) : Bool :=
  (res.stderr = "") ||
  (strContains res.stderr "File exists" && parents) ||
  strContains (adbGetOutput res.stdout res.stderr) "exists"

/-- Verdict of `ADBFileManager.is_dir` (`HiManagers.py` lines 97-99):
`"dir" in output` over the merged output of the probe result. -/
def adbIsDirVerdict (res : CommandResult) : Bool :=
  strContains (adbGetOutput res.stdout res.stderr) "dir"

/-- Success classification of `BusyBoxManager.mkdir` (`HiManagers.py`
line 375) over the combined output of `BusyBoxManager._run_command`. -/
def bbMkdirSuccess (result : String) : Bool :=
  !(["error", "cannot", "failed"].any
      (fun e => strContains (pyLower result) e))

/-- Verdict of `BusyBoxManager.is_dir` (`HiManagers.py` line 490):
`"dir" in result` over the combined output of the probe. -/
def bbIsDirVerdict (result : String) : Bool :=
  strContains result "dir"

set_option maxRecDepth 8000 in
/-- Claim C8 (refuted, code bug): the `-c {repr(command)}` wrapping of
`ADBFileManager._run_command` garbles every dispatch, so the shell never
runs the intended `mkdir`/`test -d`.  For the path `/data/local` with
`parents=true`: the dispatched mkdir script is well formed but consists
of exactly two top-level commands — the first executes a program named
`-c` (with the intended `mkdir -p` only as its quoted argument), the
second is the sentinel echo — and the raw-shell `is_dir` probe and the
augmented-shell (busybox-prefixed) mkdir dispatch are garbled the same
way.  Decoding the resulting `not found`/127 outcome, the raw-shell
`mkdir` classifies failure (`False`, on this and every retry, so never
"success both times"), its `is_dir` sees no `dir` and is `False`; the
augmented-shell `mkdir` misreports success although nothing ran, and its
`is_dir` is `False`.  Only the direct variant satisfies the claimed
contract. -/
theorem c8_shell_mkdir_dispatch_garbled :
    (shSplitTop (adbDispatchScript (adbMkdirCmd "/data/local" true))).1.length
      = 2 ∧
    (shSplitTop (adbDispatchScript (adbMkdirCmd "/data/local" true))).2
      = QState.out ∧
    (pyWords ((shSplitTop
        (adbDispatchScript (adbMkdirCmd "/data/local" true))).1.getD 0 "")
      ).headD "" = "-c" ∧
    pyStrip ((shSplitTop
        (adbDispatchScript (adbMkdirCmd "/data/local" true))).1.getD 1 "")
      = "echo RISH_EXIT_CODE:$?" ∧
    (pyWords ((shSplitTop
        (adbDispatchScript (adbIsDirCmd "/data/local"))).1.getD 0 "")
      ).headD "" = "-c" ∧
    (pyWords ((shSplitTop (adbDispatchScript
        (bbBusyboxCmd (bbMkdirCmd "/data/local" true)))).1.getD 0 "")
      ).headD "" = "-c" ∧
    rishRunDecode shNotFoundOutput =
      { stdout := "", stderr := "sh: -c: not found", returncode := 127 } ∧
    adbMkdirSuccess (rishRunDecode shNotFoundOutput) true = false ∧
    adbIsDirVerdict (rishRunDecode shNotFoundOutput) = false ∧
    bbMkdirSuccess (bbCombine "" (rishRunDecode shNotFoundOutput).stderr)
      = true ∧
    bbIsDirVerdict (bbCombine "" (rishRunDecode shNotFoundOutput).stderr)
      = false := by
  refine ⟨by decide, by decide, by decide, by decide, by decide, by decide,
    by decide, by decide, by decide, by decide, by decide⟩
